import Mathlib

/-!
NetRecon — a shallow embedding of the IP intelligence resolution pipeline:
`geoip_resolver.py` (assembler), `domain_resolver.py` (domain fallback chain),
`metrics.py` (request metrics) and the error-to-HTTP-status mapping of the
`/ip/<ip>` route in `app.py`.

External libraries (the GeoLite2 reader `geoip2`, `socket.gethostbyaddr`,
`requests`/BeautifulSoup, `zoneinfo`, `urllib.parse.urlparse` and
`ipaddress.ip_address`) are supplied as oracles in an `Env` record; every
embedded function additionally returns the ordered list of database reads and
network calls it performed, so that short-circuiting claims are statable.
-/

namespace NetRecon

/-- Result of a successful `ipaddress.ip_address(ip)` parse (Python stdlib,
external): the version tag and the routability flags the code consults. -/
structure IpInfo where
  isV4 : Bool
  is_private : Bool
  is_loopback : Bool
  is_reserved : Bool
  is_link_local : Bool
deriving DecidableEq

/-- The city-level geolocation record fields that `lookup_ip` reads off the
`geoip2` city response (sub-objects that may be `None` in Python become
`Option` fields). -/
structure CityRecord where
  continent_name : Option String
  continent_code : Option String
  country_name : Option String
  country_iso : Option String
  region_name : Option String
  region_iso : Option String
  city_name : Option String
  latitude : Option ℚ
  longitude : Option ℚ
  is_eu : Option Bool
  postal : Option String
  time_zone : Option String
deriving DecidableEq

/-- Outcome of `city_reader.city(ip)`: a record, `AddressNotFoundError`, or
any other exception (carrying its message). -/
inductive CityResult where
  | found (city : CityRecord)
  | notFound
  | error (msg : String)
deriving DecidableEq

/-- The ASN record fields that `_lookup_connection` reads off the `geoip2`
ASN response. -/
structure AsnRecord where
  autonomous_system_number : Nat
  autonomous_system_organization : Option String
  network : String
deriving DecidableEq

/-- Outcome of `asn_reader.asn(ip)`: a record, `AddressNotFoundError`, or any
other exception. -/
inductive AsnResult where
  | found (a : AsnRecord)
  | notFound
  | error (msg : String)
deriving DecidableEq

/-- Outcome of `socket.gethostbyaddr(ip)`: a hostname, a DNS-level failure
(`socket.herror` / `socket.gaierror`), or any other exception. -/
inductive RdnsResult where
  | ok (hostname : String)
  | dnsError
  | otherError (msg : String)
deriving DecidableEq

/-- What `_build_timezone_info` reads from a successfully loaded `ZoneInfo`
at the current instant: `now.tzname()`, `now.utcoffset()` (`None` becomes 0
in the code), `now.dst()` and `now.isoformat()`, in seconds. -/
structure TzData where
  abbr : Option String
  utcoffset : Option Int
  dst : Option Int
  current_time : String
deriving DecidableEq

/-- The `flag` sub-object of a country-metadata entry. -/
structure FlagMeta where
  svg : Option String
  emoji : Option String
  emoji_unicode : Option String
deriving DecidableEq

/-- One entry of the `country_meta.json` table, as read by `lookup_ip`. -/
structure CountryMeta where
  calling_code : Option String
  capital : Option String
  borders : Option (List String)
  flag : Option FlagMeta
deriving DecidableEq

/-- A database read or network call performed by the pipeline. -/
inductive Effect where
  | cityRead (ip : String)
  | asnRead (ip : String)
  | rdnsCall (ip : String)
  | httpGet (asn : Nat)
deriving DecidableEq

/-- The external collaborators of the pipeline, as oracles: IP parsing
(`ipaddress`), the two GeoLite2 readers, reverse DNS (`socket`), the
PeeringDB page fetch + scrape (`requests`/bs4), `urlparse(...).hostname or
.path`, `ZoneInfo` loading together with the current instant, and the
country-metadata table. -/
structure Env where
  parseIp : String → Option IpInfo
  cityLookup : String → CityResult
  asnLookup : String → AsnResult
  reverseDns : String → RdnsResult
  peeringdbWebsite : Nat → Option String
  urlparseHost : String → Option String
  loadTz : String → Option TzData
  countryMeta : List (String × CountryMeta)

/-- The configuration flags `resolve_domain_for_ip` consults (config.py). -/
structure Settings where
  domain_resolution_enabled : Bool
  reverse_dns_enabled : Bool
  peeringdb_scrape_enabled : Bool
deriving DecidableEq

/-- The defaults of config.py (all three stages enabled). -/
def defaultSettings : Settings :=
  { domain_resolution_enabled := true
    reverse_dns_enabled := true
    peeringdb_scrape_enabled := true }

/-- Python truthiness of an optional string: `None` and `""` are falsy. -/
def strTruthy : Option String → Bool
  | some s => !(s = "")
  | none => false

/-- Python `a or b` on optional strings (first operand when truthy). -/
def pyOrStr (a b : Option String) : Option String :=
  match a with
  | some s => if s = "" then b else some s
  | none => b

/-- Python `s.startswith(p)`: `p`'s character sequence is a prefix of `s`'s. -/
def pyStartswith (s p : String) : Bool := p.data.isPrefixOf s.data

/-- Character-level splitter behind `pySplit` (accumulator holds the current
field reversed). -/
def pySplitAux (sep : Char) : List Char → List Char → List String
  | [], acc => [acc.reverse.asString]
  | c :: rest, acc =>
    if c = sep then acc.reverse.asString :: pySplitAux sep rest []
    else pySplitAux sep rest (c :: acc)

/-- Python `s.split(sep)` for a one-character separator: `""` gives `[""]`,
adjacent separators give empty fields. -/
def pySplit (sep : Char) (s : String) : List String := pySplitAux sep s.data []

/-- Python `sep.join(l)`. -/
def joinSep (sep : String) : List String → String
  | [] => ""
  | [x] => x
  | x :: y :: rest => x ++ sep ++ joinSep sep (y :: rest)

/-- Python `sub in s` on character sequences. -/
def containsSub (needle : List Char) : List Char → Bool
  | [] => needle.isPrefixOf []
  | c :: rest => needle.isPrefixOf (c :: rest) || containsSub needle rest

/-- Python `s.lower()` for the ASCII strings handled here. -/
def pyToLower (s : String) : String := (s.data.map Char.toLower).asString

/-- Python `s.upper()` for the ASCII strings handled here. -/
def pyToUpper (s : String) : String := (s.data.map Char.toUpper).asString

/-- Python `s.strip()`: drop leading and trailing whitespace. -/
def pyStrip (s : String) : String :=
  ((s.data.dropWhile Char.isWhitespace).reverse.dropWhile Char.isWhitespace).reverse.asString

/-- Python `s[n:]` on a string. -/
def strDrop (s : String) (n : Nat) : String := (s.data.drop n).asString

/-- Hostname post-processing of `_lookup_domain` (geoip_resolver.py, lines
68–72): keep the last two dot-separated labels when there are at least two,
otherwise return the hostname itself (`hostname or None`); no lower-casing. -/
def hostname_to_domain (hostname : String) : Option String :=
  let parts := pySplit '.' hostname
  if parts.length ≥ 2 then
    some (joinSep "." (parts.drop (parts.length - 2)))
  else if hostname = "" then none
  else some hostname

/-- Function `_lookup_domain` (geoip_resolver.py): one reverse-DNS call; DNS failures
and unexpected exceptions both yield `None`. -/
def lookup_domain (env : Env) (ip : String) : Option String × List Effect :=
  match env.reverseDns ip with
  | RdnsResult.dnsError => (none, [Effect.rdnsCall ip])
  | RdnsResult.otherError _ => (none, [Effect.rdnsCall ip])
  | RdnsResult.ok hostname => (hostname_to_domain hostname, [Effect.rdnsCall ip])

/-- Hostname post-processing of `_reverse_dns_cached` (domain_resolver.py,
lines 65–72): empty hostname yields `None`; with at least two labels the last
two are joined and lower-cased; a single label is lower-cased. -/
def rdns_hostname_to_domain (hostname : String) : Option String :=
  if hostname = "" then none
  else
    let parts := pySplit '.' hostname
    if parts.length ≥ 2 then
      some (pyToLower (joinSep "." (parts.drop (parts.length - 2))))
    else some (pyToLower hostname)

/-- Function `_reverse_dns_cached` (domain_resolver.py): one reverse-DNS call; DNS
failures and unexpected exceptions both yield `None`. -/
def reverse_dns_cached (env : Env) (ip : String) : Option String × List Effect :=
  match env.reverseDns ip with
  | RdnsResult.dnsError => (none, [Effect.rdnsCall ip])
  | RdnsResult.otherError _ => (none, [Effect.rdnsCall ip])
  | RdnsResult.ok hostname => (rdns_hostname_to_domain hostname, [Effect.rdnsCall ip])

/-- Function `_normalize_domain` (domain_resolver.py): strip, prepend a scheme when
none is present, take `urlparse(...).hostname or .path` (Python stdlib,
supplied by the environment), strip a leading `www.`, lower-case. -/
def normalize_domain (env : Env) (value : Option String) : Option String :=
  match value with
  | none => none
  | some v0 =>
    if v0 = "" then none
    else
      let v1 := pyStrip v0
      if v1 = "" then none
      else
        let v2 := if containsSub "://".data v1.data then v1 else "http://" ++ v1
        match env.urlparseHost v2 with
        | none => none
        | some host =>
          let host2 := if pyStartswith host "www." then strDrop host 4 else host
          some (pyToLower host2)

/-- Function `_fetch_peeringdb_website_html_cached` (domain_resolver.py): one HTTP
fetch of the PeeringDB page for the ASN; the request, status check, HTML
parse and selector extraction are external, so the environment directly
supplies the extracted href (or `None` for any failure). -/
def fetch_peeringdb_website (env : Env) (asn : Nat) : Option String × List Effect :=
  (env.peeringdbWebsite asn, [Effect.httpGet asn])

/-- Function `resolve_domain_for_ip` (domain_resolver.py): global toggle, routability
filter, then reverse DNS, then the PeeringDB scrape when an ASN is known. -/
def resolve_domain_for_ip (cfg : Settings) (env : Env) (ip : String)
    (asn_number : Option Nat) : Option String × List Effect :=
  if !cfg.domain_resolution_enabled then (none, [])
  else
    match env.parseIp ip with
    | none => (none, [])
    | some ip_obj =>
      if ip_obj.is_private || ip_obj.is_loopback || ip_obj.is_reserved
          || ip_obj.is_link_local then
        (none, [])
      else
        let step1 : Option String × List Effect :=
          if cfg.reverse_dns_enabled then reverse_dns_cached env ip else (none, [])
        let rdns_domain := step1.1
        let t1 := step1.2
        if strTruthy rdns_domain then (rdns_domain, t1)
        else if cfg.peeringdb_scrape_enabled then
          match asn_number with
          | some asn =>
            let step2 := fetch_peeringdb_website env asn
            let website_url := step2.1
            let t2 := step2.2
            if strTruthy website_url then
              let normalized := normalize_domain env website_url
              if strTruthy normalized then (normalized, t1 ++ t2)
              else (none, t1 ++ t2)
            else (none, t1 ++ t2)
          | none => (none, t1)
        else (none, t1)

/-- The `connection` sub-record built by `_lookup_connection`; the `domain`
key is present only when the domain lookup produced a truthy value. -/
structure Connection where
  asn : Nat
  org : Option String
  isp : Option String
  route : String
  domain : Option String
deriving DecidableEq

/-- Function `_lookup_connection` (geoip_resolver.py): ASN read first; `AddressNotFoundError`
and any other exception yield `None` before any domain lookup; only on ASN
success is `_lookup_domain` invoked. -/
def lookup_connection (env : Env) (ip : String) : Option Connection × List Effect :=
  match env.asnLookup ip with
  | AsnResult.notFound => (none, [Effect.asnRead ip])
  | AsnResult.error _ => (none, [Effect.asnRead ip])
  | AsnResult.found a =>
    let step := lookup_domain env ip
    let domain := step.1
    (some { asn := a.autonomous_system_number
            org := a.autonomous_system_organization
            isp := a.autonomous_system_organization
            route := a.network
            domain := if strTruthy domain then domain else none },
     Effect.asnRead ip :: step.2)

/-- Zero-padding of Python `f"{n:02d}"` for a non-negative operand. -/
def pad2 (n : Nat) : String := if n < 10 then "0" ++ toString n else toString n

/-- The offset-string computation of `_build_timezone_info` (geoip_resolver.py,
lines 96–100): sign from the arithmetic sign (`>= 0` gives `+`), hours and
minutes from the absolute offset. -/
def format_utc_offset (offset_seconds : Int) : String :=
  let sign := if offset_seconds ≥ 0 then "+" else "-"
  let abs_total := offset_seconds.natAbs
  let hours := abs_total / 3600
  let minutes := (abs_total % 3600) / 60
  sign ++ pad2 hours ++ ":" ++ pad2 minutes

/-- The timezone snapshot dict of `_build_timezone_info`; the degraded form
`{"id": tz_name}` is modelled by all non-`id` fields being `none`. -/
structure TzSnapshot where
  id : String
  abbr : Option String
  is_dst : Option Bool
  offset : Option Int
  utc : Option String
  current_time : Option String
deriving DecidableEq

/-- Function `_build_timezone_info` (geoip_resolver.py): falsy identifier yields
`None`; a `ZoneInfo` load failure yields the degraded `{"id": tz_name}`;
otherwise the full snapshot, with a `None` `utcoffset` treated as 0 and
`is_dst` true exactly when `now.dst()` is non-`None` and non-zero. -/
def build_timezone_info (env : Env) (tz_name : Option String) : Option TzSnapshot :=
  match tz_name with
  | none => none
  | some s =>
    if s = "" then none
    else
      match env.loadTz s with
      | none =>
        some { id := s, abbr := none, is_dst := none, offset := none,
               utc := none, current_time := none }
      | some tz =>
        let offset_seconds : Int := tz.utcoffset.getD 0
        let dst_flag : Bool :=
          match tz.dst with
          | none => false
          | some d => !(d = 0)
        some { id := s, abbr := tz.abbr, is_dst := some dst_flag,
               offset := some offset_seconds,
               utc := some (format_utc_offset offset_seconds),
               current_time := some tz.current_time }

/-- Function `_country_code_to_emoji` (geoip_resolver.py): regional-indicator pair for
a two-character code. Python raises (and catches, yielding `None`) when the
computed codepoint is invalid; `Char.ofNat` substitutes a default instead —
unreachable for the alphabetic ISO codes the table uses. -/
def country_code_to_emoji (cc : Option String) : Option String :=
  match cc with
  | none => none
  | some s =>
    match s.toList with
    | [c0, c1] =>
      let base := 0x1F1E6
      let first := base + (c0.toUpper.toNat - 'A'.toNat)
      let second := base + (c1.toUpper.toNat - 'A'.toNat)
      some (String.mk [Char.ofNat first, Char.ofNat second])
    | _ => none

/-- Python `f"U+{ord(ch):04X}"` hex payload: upper-case, zero-padded to 4. -/
def hex_upper4 (n : Nat) : String :=
  let s := pyToUpper (Nat.toDigits 16 n).asString
  if s.length < 4 then String.mk (List.replicate (4 - s.length) '0') ++ s else s

/-- Function `_emoji_to_unicode_codes` (geoip_resolver.py). -/
def emoji_to_unicode_codes (emoji : Option String) : Option String :=
  match emoji with
  | none => none
  | some e =>
    if e = "" then none
    else some (joinSep " " (e.toList.map (fun ch => "U+" ++ hex_upper4 ch.toNat)))

/-- The `flag` sub-object of the merged record. -/
structure FlagOut where
  svg : Option String
  emoji : Option String
  emoji_unicode : Option String
deriving DecidableEq

/-- The merged output dict built by `lookup_ip`. -/
structure ResolvedIpRecord where
  ip : String
  success : Bool
  type : String
  continent : Option String
  continent_code : Option String
  country : Option String
  country_code : Option String
  region : Option String
  region_code : Option String
  city : Option String
  latitude : Option ℚ
  longitude : Option ℚ
  is_eu : Option Bool
  postal : Option String
  calling_code : Option String
  capital : Option String
  borders : Option (List String)
  flag : Option FlagOut
  connection : Option Connection
  timezone : Option TzSnapshot
deriving DecidableEq

/-- The `(data, err)` pair returned by `lookup_ip`, as a sum. -/
inductive LookupOutcome where
  | ok (r : ResolvedIpRecord)
  | invalid_ip
  | not_found
  | lookup_error (msg : String)
deriving DecidableEq

/-- The `err` string component of `lookup_ip`'s return value. -/
def errString : LookupOutcome → Option String
  | LookupOutcome.ok _ => none
  | LookupOutcome.invalid_ip => some "invalid_ip"
  | LookupOutcome.not_found => some "not_found"
  | LookupOutcome.lookup_error msg => some msg

/-- The "Inject country metadata (if exists)" block of `lookup_ip`
(geoip_resolver.py, lines 182–200), as a function of the base record, the
ISO country code and the loaded table. -/
def inject_country_meta (base : ResolvedIpRecord) (cc? : Option String)
    (table : List (String × CountryMeta)) : ResolvedIpRecord :=
  match cc? with
  | none => base
  | some cc =>
    if cc = "" then base
    else
      match table.lookup cc with
      | none => base
      | some meta =>
        let flag_meta : FlagMeta :=
          meta.flag.getD { svg := none, emoji := none, emoji_unicode := none }
        let emoji := pyOrStr flag_meta.emoji (country_code_to_emoji (some cc))
        let emoji_unicode :=
          pyOrStr flag_meta.emoji_unicode (emoji_to_unicode_codes emoji)
        { base with
            calling_code := meta.calling_code
            capital := meta.capital
            borders := meta.borders
            flag := some { svg := flag_meta.svg, emoji := emoji,
                           emoji_unicode := emoji_unicode } }

/-- Function `lookup_ip` (geoip_resolver.py): parse, city read, record assembly,
country-metadata injection, then ASN/connection enrichment. -/
def lookup_ip (env : Env) (ip : String) : LookupOutcome × List Effect :=
  match env.parseIp ip with
  | none => (LookupOutcome.invalid_ip, [])
  | some ip_obj =>
    match env.cityLookup ip with
    | CityResult.notFound => (LookupOutcome.not_found, [Effect.cityRead ip])
    | CityResult.error e =>
        (LookupOutcome.lookup_error ("lookup_error:" ++ e), [Effect.cityRead ip])
    | CityResult.found city =>
      let timezone_info := build_timezone_info env city.time_zone
      let base : ResolvedIpRecord :=
        { ip := ip
          success := true
          type := if ip_obj.isV4 then "ipv4" else "ipv6"
          continent := city.continent_name
          continent_code := city.continent_code
          country := city.country_name
          country_code := city.country_iso
          region := city.region_name
          region_code := city.region_iso
          city := city.city_name
          latitude := city.latitude
          longitude := city.longitude
          is_eu := city.is_eu
          postal := city.postal
          calling_code := none
          capital := none
          borders := none
          flag := none
          connection := none
          timezone := timezone_info }
      let withMeta : ResolvedIpRecord :=
        inject_country_meta base city.country_iso env.countryMeta
      let step := lookup_connection env ip
      let final : ResolvedIpRecord :=
        match step.1 with
        | some c => { withMeta with connection := some c }
        | none => withMeta
      (LookupOutcome.ok final, Effect.cityRead ip :: step.2)

/-- HTTP status selection of the `/ip/<ip>` route (app.py, lines 72–86),
driven by the `err` string exactly as the route tests it. -/
def ip_lookup_status (env : Env) (ip : String) : Nat :=
  match errString (lookup_ip env ip).1 with
  | some e =>
    if e = "invalid_ip" then 400
    else if e = "not_found" then 404
    else if pyStartswith e "lookup_error" then 502
    else 200
  | none => 200

/-- The `connection` field of a successful outcome (`none` on errors). -/
def LookupOutcome.connectionOf : LookupOutcome → Option Connection
  | LookupOutcome.ok r => r.connection
  | _ => none

/-- The resolved domain inside a successful outcome's connection, if any. -/
def LookupOutcome.domainOf (o : LookupOutcome) : Option String :=
  match o.connectionOf with
  | some c => c.domain
  | none => none

/-- Whether the outcome is the success case. -/
def LookupOutcome.isSuccess : LookupOutcome → Bool
  | LookupOutcome.ok _ => true
  | _ => false

/-- The mutable counter state of `Metrics` (metrics.py); the two `defaultdict`
counters become association lists, float latency and timestamps become ℚ. -/
structure MetricsState where
  total_requests : Nat
  total_errors : Nat
  total_success : Nat
  path_counters : List (String × Nat)
  status_counters : List (Int × Nat)
  last_request_timestamp : Option ℚ
  last_request_datetime : Option ℚ
  total_latency_ms : ℚ
deriving DecidableEq

/-- Constructor `Metrics.__init__`: all counters zero, no last request. -/
def metricsInit : MetricsState :=
  { total_requests := 0
    total_errors := 0
    total_success := 0
    path_counters := []
    status_counters := []
    last_request_timestamp := none
    last_request_datetime := none
    total_latency_ms := 0 }

/-- Python `defaultdict(int)`-style increment of an association-list counter. -/
def bump {α : Type} [DecidableEq α] : List (α × Nat) → α → List (α × Nat)
  | [], k => [(k, 1)]
  | (k', v) :: rest, k =>
    if k' = k then (k', v + 1) :: rest else (k', v) :: bump rest k

/-- Method `Metrics.record_request` (metrics.py): increment totals and both keyed
counters, accumulate latency, stamp the request time, and classify the status
code — `[200, 400)` counts as success, everything else as error. -/
def record_request (st : MetricsState) (path : String) (status_code : Int)
    (duration_ms : ℚ) (now : ℚ) : MetricsState :=
  { total_requests := st.total_requests + 1
    path_counters := bump st.path_counters path
    status_counters := bump st.status_counters status_code
    total_latency_ms := st.total_latency_ms + duration_ms
    last_request_timestamp := some now
    last_request_datetime := some now
    total_success :=
      if 200 ≤ status_code ∧ status_code < 400 then st.total_success + 1
      else st.total_success
    total_errors :=
      if 200 ≤ status_code ∧ status_code < 400 then st.total_errors
      else st.total_errors + 1 }

/-- The dict returned by `Metrics.snapshot`. -/
structure Snapshot where
  total_requests : Nat
  total_success : Nat
  total_errors : Nat
  average_latency_ms : ℚ
  by_path : List (String × Nat)
  by_status_code : List (Int × Nat)
  last_request_timestamp : Option ℚ
deriving DecidableEq

/-- Method `Metrics.snapshot` (metrics.py): point-in-time copy; average latency is
the plain quotient, or 0.0 with no recorded request. -/
def snapshot (st : MetricsState) : Snapshot :=
  { total_requests := st.total_requests
    total_success := st.total_success
    total_errors := st.total_errors
    average_latency_ms :=
      if st.total_requests > 0 then st.total_latency_ms / (st.total_requests : ℚ)
      else 0
    by_path := st.path_counters
    by_status_code := st.status_counters
    last_request_timestamp := st.last_request_timestamp }

/-- One recorded request: path, status code, duration, wall-clock time. -/
structure Req where
  path : String
  status_code : Int
  duration_ms : ℚ
  now : ℚ

/-- Replay a sequence of `record_request` calls on a fresh `Metrics`. -/
def applyRequests (reqs : List Req) : MetricsState :=
  reqs.foldl (fun st r => record_request st r.path r.status_code r.duration_ms r.now)
    metricsInit

/-- Sum of the counts stored in an association-list counter. -/
def sumVals {α : Type} (l : List (α × Nat)) : Nat := (l.map Prod.snd).sum

/-- A routable public IPv4 parse result. -/
def infoPublicV4 : IpInfo :=
  { isV4 := true, is_private := false, is_loopback := false,
    is_reserved := false, is_link_local := false }

/-- A private IPv4 parse result (e.g. `10.0.0.5`). -/
def infoPrivateV4 : IpInfo :=
  { isV4 := true, is_private := true, is_loopback := false,
    is_reserved := false, is_link_local := false }

/-- A minimal city record with no optional data. -/
def sampleCity : CityRecord :=
  { continent_name := none, continent_code := none, country_name := none,
    country_iso := none, region_name := none, region_iso := none,
    city_name := none, latitude := none, longitude := none, is_eu := none,
    postal := none, time_zone := none }

/-- The ASN record of the worked example (`8.8.8.8`). -/
def asnGoogle : AsnRecord :=
  { autonomous_system_number := 15169,
    autonomous_system_organization := some "Google LLC",
    network := "8.8.8.0/24" }

/-- A baseline environment: every address parses as routable public IPv4,
city and ASN lookups succeed, reverse DNS answers `dns.google`, the other
oracles return nothing. -/
def envBase : Env :=
  { parseIp := fun _ => some infoPublicV4
    cityLookup := fun _ => CityResult.found sampleCity
    asnLookup := fun _ => AsnResult.found asnGoogle
    reverseDns := fun _ => RdnsResult.ok "dns.google"
    peeringdbWebsite := fun _ => none
    urlparseHost := fun _ => none
    loadTz := fun _ => none
    countryMeta := [] }

/-- Environment `envBase` with a failing (`AddressNotFoundError`) ASN lookup. -/
def envAsnNotFound : Env := { envBase with asnLookup := fun _ => AsnResult.notFound }

/-- Environment `envBase` with an unparseable address. -/
def envParseFail : Env := { envBase with parseIp := fun _ => none }

/-- Environment `envBase` with a city database that covers no address. -/
def envCityNotFound : Env :=
  { envBase with cityLookup := fun _ => CityResult.notFound }

/-- Environment `envBase` with a faulting city database read. -/
def envCityFault : Env :=
  { envBase with cityLookup := fun _ => CityResult.error "corrupt database" }

/-- Environment `envBase` with reverse DNS failing at the DNS layer. -/
def envRdnsFail : Env :=
  { envBase with reverseDns := fun _ => RdnsResult.dnsError }

/-- Connection field of the metadata injection: the block never touches it. -/
theorem inject_country_meta_connection (base : ResolvedIpRecord)
    (cc? : Option String) (table : List (String × CountryMeta)) :
    (inject_country_meta base cc? table).connection = base.connection := by
  cases cc? with
  | none => rfl
  | some cc =>
    by_cases h : cc = ""
    · simp [inject_country_meta, h]
    · cases hm : table.lookup cc <;> simp [inject_country_meta, h, hm]

/-- C7: for every integer UTC offset in seconds, the timezone snapshot's
formatted offset string is the sign of the offset's arithmetic sign (offset 0
uses `+`) followed by the absolute offset decomposed into zero-padded hours
and minutes; in particular offset 0 formats as `+00:00` and offset -21600
formats as `-06:00`. -/
theorem C7_offset_format :
    format_utc_offset 0 = "+00:00" ∧
    format_utc_offset (-21600) = "-06:00" ∧
    ∀ offset_seconds : Int,
      format_utc_offset offset_seconds =
        (if offset_seconds ≥ 0 then "+" else "-")
          ++ pad2 (offset_seconds.natAbs / 3600) ++ ":"
          ++ pad2 (offset_seconds.natAbs % 3600 / 60) :=
  ⟨rfl, rfl, fun _ => rfl⟩

/-- C8: the timezone enricher maps a null or empty identifier to a null
snapshot, and an identifier whose `ZoneInfo` load fails to the degraded
snapshot carrying only the identifier; being a total function of the oracle
outcomes, it never raises to its caller. -/
theorem C8_timezone_degraded (env : Env) (s : String) :
    build_timezone_info env none = none ∧
    build_timezone_info env (some "") = none ∧
    (s ≠ "" → env.loadTz s = none →
      build_timezone_info env (some s) =
        some { id := s, abbr := none, is_dst := none, offset := none,
               utc := none, current_time := none }) := by
  refine ⟨rfl, rfl, fun hs hload => ?_⟩
  simp [build_timezone_info, hs, hload]

/-- Witness for C8 at the identifier `America/Chicago` in `envBase` (whose
`ZoneInfo` oracle loads nothing). -/
theorem C8_timezone_degraded_witness :
    build_timezone_info envBase none = none ∧
    build_timezone_info envBase (some "") = none ∧
    build_timezone_info envBase (some "America/Chicago") =
      some { id := "America/Chicago", abbr := none, is_dst := none,
             offset := none, utc := none, current_time := none } :=
  ⟨(C8_timezone_degraded envBase "America/Chicago").1,
   (C8_timezone_degraded envBase "America/Chicago").2.1,
   (C8_timezone_degraded envBase "America/Chicago").2.2 (by decide) rfl⟩

/-- C9: `record_request` increments the success counter exactly when the
status code lies in `[200, 400)` and the error counter otherwise, and
recording requests with status codes 200, 404 and 500 on a fresh collector
yields `total_requests = 3`, `total_success = 1`, `total_errors = 2`. -/
theorem C9_classification :
    (∀ (st : MetricsState) (path : String) (status_code : Int) (d now : ℚ),
      (record_request st path status_code d now).total_requests
          = st.total_requests + 1 ∧
      (record_request st path status_code d now).total_success
          = st.total_success
            + (if 200 ≤ status_code ∧ status_code < 400 then 1 else 0) ∧
      (record_request st path status_code d now).total_errors
          = st.total_errors
            + (if 200 ≤ status_code ∧ status_code < 400 then 0 else 1)) ∧
    (snapshot (applyRequests
        [⟨"/ip/8.8.8.8", 200, 1, 1⟩, ⟨"/ip/127.0.0.1", 404, 1, 2⟩,
         ⟨"/ip/1.2.3.4", 500, 1, 3⟩])).total_requests = 3 ∧
    (snapshot (applyRequests
        [⟨"/ip/8.8.8.8", 200, 1, 1⟩, ⟨"/ip/127.0.0.1", 404, 1, 2⟩,
         ⟨"/ip/1.2.3.4", 500, 1, 3⟩])).total_success = 1 ∧
    (snapshot (applyRequests
        [⟨"/ip/8.8.8.8", 200, 1, 1⟩, ⟨"/ip/127.0.0.1", 404, 1, 2⟩,
         ⟨"/ip/1.2.3.4", 500, 1, 3⟩])).total_errors = 2 := by
  refine ⟨fun st path sc d now => ⟨rfl, ?_, ?_⟩, rfl, rfl, rfl⟩
  · by_cases h : 200 ≤ sc ∧ sc < 400 <;> simp [record_request, h]
  · by_cases h : 200 ≤ sc ∧ sc < 400 <;> simp [record_request, h]

/-- Incrementing one key of an association-list counter raises the sum of
its counts by one. -/
theorem sumVals_bump {α : Type} [DecidableEq α] (l : List (α × Nat)) (k : α) :
    sumVals (bump l k) = sumVals l + 1 := by
  induction l with
  | nil => rfl
  | cons p rest ih =>
    obtain ⟨k', v⟩ := p
    by_cases h : k' = k
    · simp [bump, h, sumVals]
      omega
    · simp only [bump, h, if_false, sumVals, List.map_cons, List.sum_cons]
      have := ih
      simp only [sumVals] at this
      omega

/-- The counter balance maintained by `record_request`: the request total
equals success plus errors, and equals the sum of each keyed counter. -/
def metricsConsistent (st : MetricsState) : Prop :=
  st.total_requests = st.total_success + st.total_errors ∧
  st.total_requests = sumVals st.path_counters ∧
  st.total_requests = sumVals st.status_counters

/-- One `record_request` call preserves the counter balance. -/
theorem metricsConsistent_record (st : MetricsState) (p : String) (sc : Int)
    (d now : ℚ) (h : metricsConsistent st) :
    metricsConsistent (record_request st p sc d now) := by
  obtain ⟨h1, h2, h3⟩ := h
  refine ⟨?_, ?_, ?_⟩
  · by_cases hc : 200 ≤ sc ∧ sc < 400 <;> simp [record_request, hc] <;> omega
  · simp [record_request, sumVals_bump]
    omega
  · simp [record_request, sumVals_bump]
    omega

/-- Replaying any request list on a balanced state keeps it balanced. -/
theorem metricsConsistent_foldl (reqs : List Req) :
    ∀ st : MetricsState, metricsConsistent st →
      metricsConsistent (reqs.foldl
        (fun st r => record_request st r.path r.status_code r.duration_ms r.now) st) := by
  induction reqs with
  | nil => exact fun st h => h
  | cons r rest ih =>
    intro st h
    exact ih _ (metricsConsistent_record st r.path r.status_code r.duration_ms r.now h)

/-- C10: after any finite sequence of `record_request` calls on a fresh
collector, the request total equals success plus errors, equals the sum of
the per-path counters, and equals the sum of the per-status-code counters;
and the snapshot's average latency is the total latency divided by the
request total, or 0 when nothing was recorded. -/
theorem C10_metrics_invariant (reqs : List Req) :
    (applyRequests reqs).total_requests
        = (applyRequests reqs).total_success + (applyRequests reqs).total_errors ∧
    (applyRequests reqs).total_requests
        = sumVals (applyRequests reqs).path_counters ∧
    (applyRequests reqs).total_requests
        = sumVals (applyRequests reqs).status_counters ∧
    (snapshot (applyRequests reqs)).average_latency_ms
        = (if (applyRequests reqs).total_requests = 0 then 0
           else (applyRequests reqs).total_latency_ms
                  / ((applyRequests reqs).total_requests : ℚ)) := by
  have hinv := metricsConsistent_foldl reqs metricsInit ⟨rfl, rfl, rfl⟩
  obtain ⟨h1, h2, h3⟩ := hinv
  refine ⟨h1, h2, h3, ?_⟩
  by_cases h0 : (applyRequests reqs).total_requests = 0
  · simp [snapshot, applyRequests, h0] at *
    simp [h0]
  · have hpos : 0 < (applyRequests reqs).total_requests := Nat.pos_of_ne_zero h0
    simp [snapshot, applyRequests, h0, hpos] at *
    simp [h0]

/-- C3: a parse failure short-circuits everything: the result is the
invalid-address error mapped to HTTP 400, and the effect trace is empty
(zero database reads, zero network calls). -/
theorem C3_invalid_short_circuit (env : Env) (ip : String)
    (h : env.parseIp ip = none) :
    lookup_ip env ip = (LookupOutcome.invalid_ip, []) ∧
    ip_lookup_status env ip = 400 := by
  constructor
  · simp [lookup_ip, h]
  · simp [ip_lookup_status, lookup_ip, h, errString]

/-- Witness for C3 on an environment whose parser rejects everything. -/
theorem C3_invalid_short_circuit_witness :
    lookup_ip envParseFail "999.0.0.1" = (LookupOutcome.invalid_ip, []) ∧
    ip_lookup_status envParseFail "999.0.0.1" = 400 :=
  C3_invalid_short_circuit envParseFail "999.0.0.1" rfl

/-- The ASN record inside an ASN lookup outcome, when it succeeded. -/
def AsnResult.found? : AsnResult → Option AsnRecord
  | AsnResult.found a => some a
  | _ => none

/-- C4: when the city lookup succeeds, an ASN lookup that does not return a
record (address not found, or any exception) leaves the merged record's
connection field absent while the overall outcome is still a success mapped
to HTTP 200. -/
theorem C4_asn_failure_nonfatal (env : Env) (ip : String) (info : IpInfo)
    (city : CityRecord) (hp : env.parseIp ip = some info)
    (hc : env.cityLookup ip = CityResult.found city)
    (ha : (env.asnLookup ip).found? = none) :
    (lookup_ip env ip).1.isSuccess = true ∧
    (lookup_ip env ip).1.connectionOf = none ∧
    ip_lookup_status env ip = 200 := by
  cases haa : env.asnLookup ip with
  | found a => rw [haa] at ha; exact absurd ha (by simp [AsnResult.found?])
  | notFound =>
    refine ⟨?_, ?_, ?_⟩ <;>
      simp [lookup_ip, hp, hc, lookup_connection, haa, LookupOutcome.isSuccess,
        LookupOutcome.connectionOf, inject_country_meta_connection,
        ip_lookup_status, errString]
  | error msg =>
    refine ⟨?_, ?_, ?_⟩ <;>
      simp [lookup_ip, hp, hc, lookup_connection, haa, LookupOutcome.isSuccess,
        LookupOutcome.connectionOf, inject_country_meta_connection,
        ip_lookup_status, errString]

/-- Witness for C4 at `8.8.8.8` in the environment whose ASN database covers
nothing. -/
theorem C4_asn_failure_nonfatal_witness :
    (lookup_ip envAsnNotFound "8.8.8.8").1.isSuccess = true ∧
    (lookup_ip envAsnNotFound "8.8.8.8").1.connectionOf = none ∧
    ip_lookup_status envAsnNotFound "8.8.8.8" = 200 :=
  C4_asn_failure_nonfatal envAsnNotFound "8.8.8.8" infoPublicV4 sampleCity
    rfl rfl rfl

/-- Environment `envBase` where every address parses as a private IPv4. -/
def envPrivate : Env := { envBase with parseIp := fun _ => some infoPrivateV4 }

/-- C5: for any configuration, an IP whose parse is private, loopback,
reserved or link-local makes `resolve_domain_for_ip` return no domain with
an empty effect trace — neither the reverse-DNS nor the registry-scrape
strategy runs, so neither cache is touched. -/
theorem C5_nonroutable_skip (cfg : Settings) (env : Env) (ip : String)
    (asn_number : Option Nat) (info : IpInfo)
    (hp : env.parseIp ip = some info)
    (hflag : (info.is_private || info.is_loopback || info.is_reserved
              || info.is_link_local) = true) :
    resolve_domain_for_ip cfg env ip asn_number = (none, []) := by
  by_cases hd : cfg.domain_resolution_enabled
  · simp [resolve_domain_for_ip, hd, hp, hflag]
  · simp [resolve_domain_for_ip, hd]

/-- Witness for C5 at the private address `10.0.0.5` with a known ASN and
the default configuration. -/
theorem C5_nonroutable_skip_witness :
    resolve_domain_for_ip defaultSettings envPrivate "10.0.0.5" (some 15169)
      = (none, []) :=
  C5_nonroutable_skip defaultSettings envPrivate "10.0.0.5" (some 15169)
    infoPrivateV4 rfl rfl

/-- A list is a `isPrefixOf`-prefix of itself followed by anything. -/
theorem isPrefixOf_append_self (l m : List Char) : l.isPrefixOf (l ++ m) = true := by
  induction l with
  | nil => cases m <;> rfl
  | cons c rest ih => simp [List.isPrefixOf, ih]

/-- The error strings produced by a city read fault: distinct from the other
two error tags and matching the route's `startswith("lookup_error")` test. -/
theorem lookup_error_tag (msg : String) :
    ("lookup_error:" ++ msg ≠ "invalid_ip") ∧
    ("lookup_error:" ++ msg ≠ "not_found") ∧
    pyStartswith ("lookup_error:" ++ msg) "lookup_error" = true := by
  refine ⟨?_, ?_, ?_⟩
  · intro h
    have hd := congrArg String.data h
    rw [String.data_append] at hd
    have hl := congrArg List.length hd
    rw [List.length_append] at hl
    have h13 : ("lookup_error:".data).length = 13 := rfl
    have h10 : ("invalid_ip".data).length = 10 := rfl
    rw [h13, h10] at hl
    omega
  · intro h
    have hd := congrArg String.data h
    rw [String.data_append] at hd
    have hl := congrArg List.length hd
    rw [List.length_append] at hl
    have h13 : ("lookup_error:".data).length = 13 := rfl
    have h9 : ("not_found".data).length = 9 := rfl
    rw [h13, h9] at hl
    omega
  · unfold pyStartswith
    rw [String.data_append]
    have hsplit : "lookup_error:".data = "lookup_error".data ++ [':'] := rfl
    rw [hsplit, List.append_assoc]
    exact isPrefixOf_append_self _ _

/-- The HTTP status of the `/ip/<ip>` route is a function of the parse and
city-lookup outcomes alone. -/
theorem ip_lookup_status_eq (env : Env) (ip : String) :
    ip_lookup_status env ip =
      (match env.parseIp ip, env.cityLookup ip with
       | none, _ => 400
       | some _, CityResult.notFound => 404
       | some _, CityResult.error _ => 502
       | some _, CityResult.found _ => 200) := by
  cases hp : env.parseIp ip with
  | none => simp [ip_lookup_status, lookup_ip, hp, errString]
  | some info =>
    cases hc : env.cityLookup ip with
    | notFound => simp [ip_lookup_status, lookup_ip, hp, hc, errString]
    | found city => simp [ip_lookup_status, lookup_ip, hp, hc, errString]
    | error e =>
      obtain ⟨hne1, hne2, hsw⟩ := lookup_error_tag e
      simp [ip_lookup_status, lookup_ip, hp, hc, errString, hne1, hne2, hsw]

/-- C2: `lookup_ip` and its route classify failures into exactly three
caller-visible errors — unparseable address → invalid-address (400), address
absent from the city database → not-covered (404), any other city read
failure → lookup-failed carrying the cause (502) — every covered address
yields a success (200), and the status never depends on any other
sub-resolution. -/
theorem C2_error_classification (env : Env) (ip : String) :
    (env.parseIp ip = none →
      (lookup_ip env ip).1 = LookupOutcome.invalid_ip ∧
      ip_lookup_status env ip = 400) ∧
    (∀ info, env.parseIp ip = some info →
      env.cityLookup ip = CityResult.notFound →
      (lookup_ip env ip).1 = LookupOutcome.not_found ∧
      ip_lookup_status env ip = 404) ∧
    (∀ info e, env.parseIp ip = some info →
      env.cityLookup ip = CityResult.error e →
      (lookup_ip env ip).1 = LookupOutcome.lookup_error ("lookup_error:" ++ e) ∧
      ip_lookup_status env ip = 502) ∧
    (∀ info city, env.parseIp ip = some info →
      env.cityLookup ip = CityResult.found city →
      (lookup_ip env ip).1.isSuccess = true ∧ ip_lookup_status env ip = 200) ∧
    (ip_lookup_status env ip = 200 ∨ ip_lookup_status env ip = 400 ∨
     ip_lookup_status env ip = 404 ∨ ip_lookup_status env ip = 502) := by
  have hs := ip_lookup_status_eq env ip
  refine ⟨?_, ?_, ?_, ?_, ?_⟩
  · intro hp
    exact ⟨by simp [lookup_ip, hp], by rw [hs]; simp [hp]⟩
  · intro info hp hc
    exact ⟨by simp [lookup_ip, hp, hc], by rw [hs]; simp [hp, hc]⟩
  · intro info e hp hc
    exact ⟨by simp [lookup_ip, hp, hc], by rw [hs]; simp [hp, hc]⟩
  · intro info city hp hc
    exact ⟨by simp [lookup_ip, hp, hc, LookupOutcome.isSuccess],
           by rw [hs]; simp [hp, hc]⟩
  · rw [hs]
    cases env.parseIp ip <;> [simp; skip]
    cases env.cityLookup ip <;> simp

/-- Witness for C2 at a faulting city database read. -/
theorem C2_error_classification_witness :
    (lookup_ip envCityFault "8.8.8.8").1
        = LookupOutcome.lookup_error ("lookup_error:" ++ "corrupt database") ∧
    ip_lookup_status envCityFault "8.8.8.8" = 502 :=
  (C2_error_classification envCityFault "8.8.8.8").2.2.1 infoPublicV4
    "corrupt database" rfl rfl

/-- C1 counterexample: in an environment where the address validates, the
city lookup succeeds and reverse DNS would resolve `dns.google`, an ASN
lookup miss makes `lookup_ip` perform no reverse-DNS call at all (the trace
stops at the ASN read), even though the domain-resolution chain
`resolve_domain_for_ip` would have produced a domain for the same address —
the assembler neither invokes that chain nor attempts any domain lookup when
the ASN lookup fails. -/
theorem C1_counterexample :
    (lookup_ip envAsnNotFound "8.8.8.8").2
        = [Effect.cityRead "8.8.8.8", Effect.asnRead "8.8.8.8"] ∧
    Effect.rdnsCall "8.8.8.8" ∉ (lookup_ip envAsnNotFound "8.8.8.8").2 ∧
    (lookup_ip envAsnNotFound "8.8.8.8").1.isSuccess = true ∧
    (lookup_ip envAsnNotFound "8.8.8.8").1.domainOf = none ∧
    envAsnNotFound.reverseDns "8.8.8.8" = RdnsResult.ok "dns.google" ∧
    (resolve_domain_for_ip defaultSettings envAsnNotFound "8.8.8.8" none).1
        = some "dns.google" :=
  ⟨rfl, by decide, rfl, rfl, rfl, rfl⟩

/-- C1 amended: when validation and the city lookup succeed, `lookup_ip`
attempts a reverse-DNS-only domain lookup (never `resolve_domain_for_ip`,
and without the ASN) exactly when the ASN lookup succeeded; a reverse-DNS
failure then yields a connection record with an absent domain, and the
overall result is still a success. -/
theorem C1_amended (env : Env) (ip : String) (info : IpInfo) (city : CityRecord)
    (hp : env.parseIp ip = some info)
    (hc : env.cityLookup ip = CityResult.found city) :
    ((Effect.rdnsCall ip ∈ (lookup_ip env ip).2) ↔
      ∃ a, env.asnLookup ip = AsnResult.found a) ∧
    (∀ a, env.asnLookup ip = AsnResult.found a →
      (env.reverseDns ip = RdnsResult.dnsError ∨
        ∃ m, env.reverseDns ip = RdnsResult.otherError m) →
      (lookup_ip env ip).1.isSuccess = true ∧
      (lookup_ip env ip).1.connectionOf ≠ none ∧
      (lookup_ip env ip).1.domainOf = none) := by
  refine ⟨?_, ?_⟩
  · cases haa : env.asnLookup ip with
    | found a =>
      cases hr : env.reverseDns ip <;>
        simp [lookup_ip, hp, hc, lookup_connection, haa, lookup_domain, hr]
    | notFound => simp [lookup_ip, hp, hc, lookup_connection, haa]
    | error m => simp [lookup_ip, hp, hc, lookup_connection, haa]
  · intro a haa hfail
    rcases hfail with hr | ⟨m, hr⟩ <;>
      refine ⟨?_, ?_, ?_⟩ <;>
        simp [lookup_ip, hp, hc, lookup_connection, haa, lookup_domain, hr,
          LookupOutcome.isSuccess, LookupOutcome.connectionOf,
          LookupOutcome.domainOf, strTruthy]

/-- Witness for C1 amended at `8.8.8.8` with a succeeding ASN lookup and a
DNS-level reverse-DNS failure. -/
theorem C1_amended_witness :
    ((Effect.rdnsCall "8.8.8.8" ∈ (lookup_ip envRdnsFail "8.8.8.8").2) ↔
      ∃ a, envRdnsFail.asnLookup "8.8.8.8" = AsnResult.found a) ∧
    (∀ a, envRdnsFail.asnLookup "8.8.8.8" = AsnResult.found a →
      (envRdnsFail.reverseDns "8.8.8.8" = RdnsResult.dnsError ∨
        ∃ m, envRdnsFail.reverseDns "8.8.8.8" = RdnsResult.otherError m) →
      (lookup_ip envRdnsFail "8.8.8.8").1.isSuccess = true ∧
      (lookup_ip envRdnsFail "8.8.8.8").1.connectionOf ≠ none ∧
      (lookup_ip envRdnsFail "8.8.8.8").1.domainOf = none) :=
  C1_amended envRdnsFail "8.8.8.8" infoPublicV4 sampleCity rfl rfl

/-- Environment `envBase` with reverse DNS answering an upper-case single-label hostname. -/
def envC6 : Env := { envBase with reverseDns := fun _ => RdnsResult.ok "LOCALHOST" }

/-- C6 counterexample: for the single-label hostname `LOCALHOST`, the
DomainResolver path lower-cases (`localhost`) but the reverse-DNS path
actually used by the assembler's pipeline returns it as-is, and the merged
record carries the non-lower-cased `LOCALHOST` — the claim's lower-casing
does not hold on the assembler's path. -/
theorem C6_counterexample :
    envC6.reverseDns "8.8.8.8" = RdnsResult.ok "LOCALHOST" ∧
    hostname_to_domain "LOCALHOST" = some "LOCALHOST" ∧
    (lookup_ip envC6 "8.8.8.8").1.domainOf = some "LOCALHOST" ∧
    rdns_hostname_to_domain "LOCALHOST" = some "localhost" ∧
    (some "LOCALHOST" : Option String) ≠ some "localhost" :=
  ⟨rfl, rfl, rfl, rfl, by decide⟩

/-- C6 amended: the DomainResolver reverse-DNS path reduces a hostname to
its last two dot-separated labels lower-cased and returns a single-label
hostname lower-cased, while the assembler's reverse-DNS path performs the
same last-two-label reduction but without lower-casing; both reduce
`mail.corp.example.com` to `example.com`. -/
theorem C6_amended (env : Env) (ip : String) (hostname : String) :
    ((pySplit '.' hostname).length ≥ 2 →
      rdns_hostname_to_domain hostname =
        some (pyToLower (joinSep "."
          ((pySplit '.' hostname).drop ((pySplit '.' hostname).length - 2)))) ∧
      hostname_to_domain hostname =
        some (joinSep "."
          ((pySplit '.' hostname).drop ((pySplit '.' hostname).length - 2)))) ∧
    (hostname ≠ "" → (pySplit '.' hostname).length < 2 →
      rdns_hostname_to_domain hostname = some (pyToLower hostname) ∧
      hostname_to_domain hostname = some hostname) ∧
    (env.reverseDns ip = RdnsResult.ok hostname →
      (lookup_domain env ip).1 = hostname_to_domain hostname ∧
      (reverse_dns_cached env ip).1 = rdns_hostname_to_domain hostname) ∧
    rdns_hostname_to_domain "mail.corp.example.com" = some "example.com" ∧
    hostname_to_domain "mail.corp.example.com" = some "example.com" := by
  refine ⟨?_, ?_, ?_, rfl, rfl⟩
  · intro h2
    by_cases he : hostname = ""
    · subst he
      exact absurd h2 (by decide)
    · constructor
      · simp [rdns_hostname_to_domain, he, h2]
      · simp [hostname_to_domain, h2]
  · intro he h2
    have h2' : ¬ (pySplit '.' hostname).length ≥ 2 := by omega
    constructor
    · simp [rdns_hostname_to_domain, he, h2']
    · simp [hostname_to_domain, he, h2']
  · intro hr
    exact ⟨by simp [lookup_domain, hr], by simp [reverse_dns_cached, hr]⟩

/-- Witness for C6 amended: the multi-label reduction at `MAIL.Example.COM`
and the pipeline connection at `LOCALHOST`. -/
theorem C6_amended_witness :
    (rdns_hostname_to_domain "MAIL.Example.COM" =
      some (pyToLower (joinSep "."
        ((pySplit '.' "MAIL.Example.COM").drop
          ((pySplit '.' "MAIL.Example.COM").length - 2)))) ∧
     hostname_to_domain "MAIL.Example.COM" =
      some (joinSep "."
        ((pySplit '.' "MAIL.Example.COM").drop
          ((pySplit '.' "MAIL.Example.COM").length - 2)))) ∧
    (lookup_domain envC6 "8.8.8.8").1 = hostname_to_domain "LOCALHOST" :=
  ⟨(C6_amended envC6 "8.8.8.8" "MAIL.Example.COM").1 (by decide),
   ((C6_amended envC6 "8.8.8.8" "LOCALHOST").2.2.1 rfl).1⟩

end NetRecon
